import Mathlib

/-!
Verification of the MCP OAuth server (src/server.py) against its
specification.  The Python handlers are shallowly embedded as pure Lean
functions: the environment-derived configuration becomes an explicit
`Env` record, JSON values become the inductive `Json`, a request body
that reached `request.json()` becomes a `ParsedBody` (either a parse
failure with its diagnostic string, or the parsed JSON value), and a
handler that can raise an uncaught Python exception returns `Except`.
-/

/-- JSON values, as produced by parsing a request body.  Numbers are
modelled as integers, which covers every value the handlers construct
or compare. -/
inductive Json where
  | null : Json
  | bool (b : Bool) : Json
  | num (n : Int) : Json
  | str (s : String) : Json
  | arr (xs : List Json) : Json
  | obj (fields : List (String × Json)) : Json
deriving Repr

/-- The environment variables read at the top of src/server.py
(lines 24-27); `none` models an unset variable. -/
structure Env where
  clerkIssuer : Option String
  clerkAudience : Option String
  clerkClientSecret : Option String
  baseUrl : Option String
deriving Repr, DecidableEq

/-- ISSUER = os.getenv("CLERK_ISSUER", "https://dev.example.com") (server.py:24). -/
def ISSUER (env : Env) : String :=
  env.clerkIssuer.getD "https://dev.example.com"

/-- AUDIENCE = os.getenv("CLERK_AUDIENCE", "my-mcp-server") (server.py:25). -/
def AUDIENCE (env : Env) : String :=
  env.clerkAudience.getD "my-mcp-server"

/-- CLIENT_SECRET = os.getenv("CLERK_CLIENT_SECRET") (server.py:26); no
default, so the value may be Python None. -/
def CLIENT_SECRET (env : Env) : Option String :=
  env.clerkClientSecret

/-- BASE_URL = os.getenv("BASE_URL", "http://127.0.0.1:8000") (server.py:27). -/
def BASE_URL (env : Env) : String :=
  env.baseUrl.getD "http://127.0.0.1:8000"

/-- Python None serialises to JSON null; a str serialises to a JSON string. -/
def jsonOfOptStr : Option String → Json
  | some s => Json.str s
  | none => Json.null

/-- An inbound HTTP request as far as the health handler can observe it:
its headers (name, value pairs).  The handler ignores them. -/
structure Request where
  headers : List (String × String)

/-- health_check (server.py:47-49): always a 200 PlainTextResponse "OK". -/
def health_check (_req : Request) : Nat × String :=
  (200, "OK")

/-- oauth_metadata (server.py:92-108): the OAuth 2.1 Authorization Server
Metadata document, a JSONResponse with the default 200 status. -/
def oauth_metadata (env : Env) : Nat × Json :=
  (200, Json.obj [
    ("issuer", Json.str (ISSUER env)),
    ("authorization_endpoint", Json.str (ISSUER env ++ "/oauth/authorize")),
    ("token_endpoint", Json.str (ISSUER env ++ "/oauth/token")),
    ("jwks_uri", Json.str (ISSUER env ++ "/.well-known/jwks.json")),
    ("registration_endpoint", Json.str (ISSUER env ++ "/oauth/register")),
    ("response_types_supported", Json.arr [Json.str "code"]),
    ("code_challenge_methods_supported", Json.arr [Json.str "S256"]),
    ("token_endpoint_auth_methods_supported", Json.arr [Json.str "client_secret_post"]),
    ("grant_types_supported", Json.arr [Json.str "authorization_code", Json.str "refresh_token"])])

/-- openid_config (server.py:111-125): the OpenID Connect Discovery
document, a JSONResponse with the default 200 status. -/
def openid_config (env : Env) : Nat × Json :=
  (200, Json.obj [
    ("issuer", Json.str (ISSUER env)),
    ("authorization_endpoint", Json.str (ISSUER env ++ "/oauth/authorize")),
    ("token_endpoint", Json.str (ISSUER env ++ "/oauth/token")),
    ("jwks_uri", Json.str (ISSUER env ++ "/.well-known/jwks.json")),
    ("response_types_supported", Json.arr [Json.str "code"]),
    ("subject_types_supported", Json.arr [Json.str "public"]),
    ("id_token_signing_alg_values_supported", Json.arr [Json.str "RS256"])])

/-- oauth_protected_resource (server.py:128-139): the Protected Resource
Metadata document, a JSONResponse with the default 200 status. -/
def oauth_protected_resource (env : Env) : Nat × Json :=
  (200, Json.obj [
    ("resource", Json.str (BASE_URL env)),
    ("authorization_servers", Json.arr [Json.str (ISSUER env)]),
    ("jwks_uri", Json.str (ISSUER env ++ "/.well-known/jwks.json")),
    ("bearer_methods_supported", Json.arr [Json.str "header"]),
    ("resource_documentation", Json.str (BASE_URL env ++ "/docs"))])

/-- The outcome of `await request.json()` inside register (server.py:150):
either the raised exception's message, or the parsed JSON value. -/
inductive ParsedBody where
  | parseError (e : String) : ParsedBody
  | parsed (data : Json) : ParsedBody
deriving Repr

/-- Python `d.get(key, default)` on the dict backing a JSON object. -/
def jsonGet (d : List (String × Json)) (key : String) (default : Json) : Json :=
  match d.lookup key with
  | some v => v
  | none => default

/-- register (server.py:142-180).  A parse failure is answered with a
400 JSONResponse (lines 152-156).  On parsed JSON the handler calls
`data.get(...)` (lines 169-176), which raises an uncaught AttributeError
when `data` is not a dict, modelled as `Except.error`; on a dict it
answers 201 with the registration record (lines 158-180).  `now` is the
value of `int(time.time())` at line 161. -/
def register (env : Env) (now : Int) (body : ParsedBody) : Except String (Nat × Json) :=
  match body with
  | ParsedBody.parseError e =>
      Except.ok (400, Json.obj [
        ("error", Json.str "Invalid JSON body"),
        ("details", Json.str e)])
  | ParsedBody.parsed data =>
      match data with
      | Json.obj d =>
          Except.ok (201, Json.obj [
            ("client_id", Json.str (AUDIENCE env)),
            ("client_secret", jsonOfOptStr (CLIENT_SECRET env)),
            ("client_id_issued_at", Json.num now),
            ("client_secret_expires_at", Json.num 0),
            ("redirect_uris", jsonGet d "redirect_uris" (Json.arr [])),
            ("token_endpoint_auth_method", jsonGet d "token_endpoint_auth_method" (Json.str "client_secret_post")),
            ("grant_types", jsonGet d "grant_types" (Json.arr [Json.str "authorization_code"])),
            ("response_types", jsonGet d "response_types" (Json.arr [Json.str "code"])),
            ("client_name", jsonGet d "client_name" (Json.str "")),
            ("scope", jsonGet d "scope" (Json.str ""))])
      | _ => Except.error "AttributeError: the parsed body is not a dict and has no attribute get"

/-- The signing key pair the server may hold (`mcp._key_pair`); its
create_token method takes subject, issuer, audience, scopes and yields
the signed token string (server.py:187-192). -/
structure KeyPair where
  create_token : String → String → String → List String → String

/-- get_dev_token (server.py:183-202): with a key pair, a 200 JSONResponse
carrying the minted token; without one, HTTPException(500, "Key pair not
available"), modelled as `Except.error (500, detail)`. -/
def get_dev_token (env : Env) (keyPair : Option KeyPair) : Except (Nat × String) (Nat × Json) :=
  match keyPair with
  | some kp =>
      Except.ok (200, Json.obj [
        ("access_token", Json.str (kp.create_token "dev-user" (ISSUER env) (AUDIENCE env) ["read", "write"])),
        ("token_type", Json.str "Bearer"),
        ("expires_in", Json.num 3600),
        ("scope", Json.str "read write")])
  | none => Except.error (500, "Key pair not available")

/-- Field lookup inside a JSON object value (none when the value is not
an object or lacks the key). -/
def jLookup (j : Json) (key : String) : Option Json :=
  match j with
  | Json.obj d => d.lookup key
  | _ => none

/-- The status code of a register outcome that did produce a response. -/
def respStatus (r : Except String (Nat × Json)) : Option Nat :=
  match r with
  | Except.ok (s, _) => some s
  | Except.error _ => none

/-- Field lookup in the JSON body of a register outcome. -/
def respLookup (r : Except String (Nat × Json)) (key : String) : Option Json :=
  match r with
  | Except.ok (_, j) => jLookup j key
  | Except.error _ => none

/-- The key list of a register outcome whose body is a JSON object. -/
def respKeys (r : Except String (Nat × Json)) : Option (List String) :=
  match r with
  | Except.ok (_, Json.obj d) => some (d.map Prod.fst)
  | _ => none

/-- The six OAuth parameters register echoes from the request body. -/
def echoedFields : List String :=
  ["redirect_uris", "token_endpoint_auth_method", "grant_types",
   "response_types", "client_name", "scope"]

/-- The default register substitutes for each echoed field when the
request body omits it (server.py:169-176). -/
def defaultFor : String → Json
  | "redirect_uris" => Json.arr []
  | "token_endpoint_auth_method" => Json.str "client_secret_post"
  | "grant_types" => Json.arr [Json.str "authorization_code"]
  | "response_types" => Json.arr [Json.str "code"]
  | "client_name" => Json.str ""
  | "scope" => Json.str ""
  | _ => Json.null

/-- A concrete configuration: every environment variable unset, so each
configured value is its documented default. -/
def envDefault : Env := ⟨none, none, none, none⟩

/-- A second concrete configuration differing from envDefault only in the
audience and client secret; the issuer and base URL stay at their defaults. -/
def envAlt : Env := ⟨none, some "other-audience", some "alt-secret", none⟩

/-- Whether a JSON value is an object (a Python dict after parsing). -/
def Json.isObj : Json → Bool
  | Json.obj _ => true
  | _ => false

/-- Looking up one of the six echoed fields in the 201 register response
yields exactly the get-with-default of the request body at that key. -/
theorem respLookup_register_obj (env : Env) (now : Int) (d : List (String × Json))
    (k : String) (hk : k ∈ echoedFields) :
    respLookup (register env now (ParsedBody.parsed (Json.obj d))) k
      = some (jsonGet d k (defaultFor k)) := by
  simp only [echoedFields, List.mem_cons, List.not_mem_nil, or_false] at hk
  rcases hk with rfl | rfl | rfl | rfl | rfl | rfl <;> rfl

/-- Any register outcome that is a response with status 201 carries the
configured audience as client_id and the configured secret as
client_secret. -/
theorem register_ok_201_credentials (env : Env) (now : Int) (b : ParsedBody)
    (r : Nat × Json) (h : register env now b = Except.ok r) (hs : r.1 = 201) :
    jLookup r.2 "client_id" = some (Json.str (AUDIENCE env)) ∧
    jLookup r.2 "client_secret" = some (jsonOfOptStr (CLIENT_SECRET env)) := by
  cases b with
  | parseError e =>
      injection h with h1
      subst h1
      simp at hs
  | parsed data =>
      cases data with
      | null => exact Except.noConfusion h
      | bool b => exact Except.noConfusion h
      | num n => exact Except.noConfusion h
      | str s => exact Except.noConfusion h
      | arr xs => exact Except.noConfusion h
      | obj d =>
          injection h with h1
          subst h1
          exact ⟨rfl, rfl⟩

/-- Claim C1 (counterexample): the claim fails as stated. A body parsing
as a valid JSON array produces no response at all (the handler raises),
and a field "foo" present in a JSON-object body does not appear in the
201 response under any key. -/
theorem register_echo_all_fields_counterexample :
    (register envDefault 0 (ParsedBody.parsed (Json.arr []))).isOk = false ∧
    respStatus (register envDefault 0 (ParsedBody.parsed (Json.obj [("foo", Json.num 1)]))) = some 201 ∧
    respLookup (register envDefault 0 (ParsedBody.parsed (Json.obj [("foo", Json.num 1)]))) "foo" = none :=
  ⟨rfl, rfl, rfl⟩

/-- Claim C1 (amended): for every request body POSTed to /register that
parses as a JSON object, the response status is 201 and every field of
the request body that is among the six echoed OAuth parameters appears
unmodified in the response under the same key. -/
theorem register_object_echo (env : Env) (now : Int) (d : List (String × Json)) :
    respStatus (register env now (ParsedBody.parsed (Json.obj d))) = some 201 ∧
    ∀ k v, k ∈ echoedFields → d.lookup k = some v →
      respLookup (register env now (ParsedBody.parsed (Json.obj d))) k = some v := by
  refine ⟨rfl, ?_⟩
  intro k v hk hv
  rw [respLookup_register_obj env now d k hk]
  simp [jsonGet, hv]

/-- Claim C1 (witness): a concrete object body with a caller-supplied
client_name is answered 201 with that client_name echoed. -/
theorem register_object_echo_witness :
    respStatus (register envDefault 0 (ParsedBody.parsed (Json.obj [("client_name", Json.str "My App")]))) = some 201 ∧
    respLookup (register envDefault 0 (ParsedBody.parsed (Json.obj [("client_name", Json.str "My App")]))) "client_name"
      = some (Json.str "My App") :=
  ⟨(register_object_echo envDefault 0 [("client_name", Json.str "My App")]).1,
   (register_object_echo envDefault 0 [("client_name", Json.str "My App")]).2
     "client_name" (Json.str "My App") (by decide) rfl⟩

/-- Claim C2: on a JSON-object body the register handler builds the record
with the configured audience as client_id, the configured secret as
client_secret, the current timestamp as client_id_issued_at, 0 as
client_secret_expires_at, and each of the six echoed OAuth parameters
taken from the body when present and from its documented default when
absent. -/
theorem register_record_construction (env : Env) (now : Int) (d : List (String × Json)) :
    respStatus (register env now (ParsedBody.parsed (Json.obj d))) = some 201 ∧
    respLookup (register env now (ParsedBody.parsed (Json.obj d))) "client_id"
      = some (Json.str (AUDIENCE env)) ∧
    respLookup (register env now (ParsedBody.parsed (Json.obj d))) "client_secret"
      = some (jsonOfOptStr (CLIENT_SECRET env)) ∧
    respLookup (register env now (ParsedBody.parsed (Json.obj d))) "client_id_issued_at"
      = some (Json.num now) ∧
    respLookup (register env now (ParsedBody.parsed (Json.obj d))) "client_secret_expires_at"
      = some (Json.num 0) ∧
    ∀ k, k ∈ echoedFields →
      (∀ v, d.lookup k = some v →
        respLookup (register env now (ParsedBody.parsed (Json.obj d))) k = some v) ∧
      (d.lookup k = none →
        respLookup (register env now (ParsedBody.parsed (Json.obj d))) k = some (defaultFor k)) := by
  refine ⟨rfl, rfl, rfl, rfl, rfl, ?_⟩
  intro k hk
  constructor
  · intro v hv
    rw [respLookup_register_obj env now d k hk]
    simp [jsonGet, hv]
  · intro hn
    rw [respLookup_register_obj env now d k hk]
    simp [jsonGet, hn]

/-- Claim C2 (witness): with an empty object body every echoed field gets
its documented default, here grant_types. -/
theorem register_record_construction_witness :
    respStatus (register envDefault 5 (ParsedBody.parsed (Json.obj []))) = some 201 ∧
    respLookup (register envDefault 5 (ParsedBody.parsed (Json.obj []))) "grant_types"
      = some (Json.arr [Json.str "authorization_code"]) :=
  ⟨(register_record_construction envDefault 5 []).1,
   (((register_record_construction envDefault 5 []).2.2.2.2.2 "grant_types" (by decide)).2 rfl).trans
     (by rfl)⟩

/-- Claim C3: a body whose JSON parse raised is answered with a response
(no exception escapes), status 400, whose JSON body is an error object
carrying the diagnostic message under the details key. -/
theorem register_malformed_body_400 (env : Env) (now : Int) (e : String) :
    (register env now (ParsedBody.parseError e)).isOk = true ∧
    respStatus (register env now (ParsedBody.parseError e)) = some 400 ∧
    respLookup (register env now (ParsedBody.parseError e)) "error"
      = some (Json.str "Invalid JSON body") ∧
    respLookup (register env now (ParsedBody.parseError e)) "details"
      = some (Json.str e) :=
  ⟨rfl, rfl, rfl, rfl⟩

/-- Claim C4: any two register outcomes with status 201, whatever the
bodies and timestamps, agree on client_id and on client_secret; both are
fixed by the configuration (client_id is the configured audience). -/
theorem register_credentials_constant (env : Env) (n1 n2 : Int) (b1 b2 : ParsedBody)
    (r1 r2 : Nat × Json)
    (h1 : register env n1 b1 = Except.ok r1) (h2 : register env n2 b2 = Except.ok r2)
    (hs1 : r1.1 = 201) (hs2 : r2.1 = 201) :
    jLookup r1.2 "client_id" = jLookup r2.2 "client_id" ∧
    jLookup r1.2 "client_secret" = jLookup r2.2 "client_secret" := by
  obtain ⟨a1, s1⟩ := register_ok_201_credentials env n1 b1 r1 h1 hs1
  obtain ⟨a2, s2⟩ := register_ok_201_credentials env n2 b2 r2 h2 hs2
  rw [a1, a2, s1, s2]
  exact ⟨rfl, rfl⟩

/-- Claim C4 (witness): an empty body at time 0 and a body claiming a
different client_id at time 1 still receive identical credentials. -/
theorem register_credentials_constant_witness :
    jLookup ((register envDefault 0 (ParsedBody.parsed (Json.obj []))).toOption.getD (0, Json.null)).2 "client_id"
      = jLookup ((register envDefault 1 (ParsedBody.parsed (Json.obj [("client_id", Json.str "attacker")]))).toOption.getD (0, Json.null)).2 "client_id" ∧
    jLookup ((register envDefault 0 (ParsedBody.parsed (Json.obj []))).toOption.getD (0, Json.null)).2 "client_secret"
      = jLookup ((register envDefault 1 (ParsedBody.parsed (Json.obj [("client_id", Json.str "attacker")]))).toOption.getD (0, Json.null)).2 "client_secret" :=
  register_credentials_constant envDefault 0 1
    (ParsedBody.parsed (Json.obj []))
    (ParsedBody.parsed (Json.obj [("client_id", Json.str "attacker")]))
    ((register envDefault 0 (ParsedBody.parsed (Json.obj []))).toOption.getD (0, Json.null))
    ((register envDefault 1 (ParsedBody.parsed (Json.obj [("client_id", Json.str "attacker")]))).toOption.getD (0, Json.null))
    rfl rfl rfl rfl

/-- Claim C5: health_check answers 200 with plain-text body OK for every
request, whatever its headers. -/
theorem health_check_always_ok (req : Request) :
    health_check req = (200, "OK") :=
  rfl

/-- Claim C6: with a key pair available, get_dev_token answers 200 with a
JSON body whose access_token is minted for subject dev-user under the
configured issuer and audience with scopes read and write, token_type
Bearer, expires_in 3600, and the fixed scope string; with no key pair it
raises HTTPException with status 500 and detail Key pair not available. -/
theorem dev_token_mint_or_500 (env : Env) (kp : KeyPair) :
    get_dev_token env (some kp) = Except.ok (200, Json.obj [
      ("access_token", Json.str (kp.create_token "dev-user" (ISSUER env) (AUDIENCE env) ["read", "write"])),
      ("token_type", Json.str "Bearer"),
      ("expires_in", Json.num 3600),
      ("scope", Json.str "read write")]) ∧
    get_dev_token env none = Except.error (500, "Key pair not available") :=
  ⟨rfl, rfl⟩

/-- Claim C7: the protected-resource metadata response has status 200,
resource equal to the configured base URL, authorization_servers equal
to the one-element list holding the configured issuer, jwks_uri the
issuer JWKS URL, bearer_methods_supported the list holding header, and a
documentation URL present. -/
theorem protected_resource_metadata_fields (env : Env) :
    (oauth_protected_resource env).1 = 200 ∧
    jLookup (oauth_protected_resource env).2 "resource" = some (Json.str (BASE_URL env)) ∧
    jLookup (oauth_protected_resource env).2 "authorization_servers"
      = some (Json.arr [Json.str (ISSUER env)]) ∧
    jLookup (oauth_protected_resource env).2 "jwks_uri"
      = some (Json.str (ISSUER env ++ "/.well-known/jwks.json")) ∧
    jLookup (oauth_protected_resource env).2 "bearer_methods_supported"
      = some (Json.arr [Json.str "header"]) ∧
    (jLookup (oauth_protected_resource env).2 "resource_documentation").isSome = true :=
  ⟨rfl, rfl, rfl, rfl, rfl, rfl⟩

/-- Claim C8: the three discovery endpoints are pure functions of the
configured issuer and base URL; two configurations agreeing on those
yield identical responses, and every response has status 200. -/
theorem discovery_endpoints_deterministic (e1 e2 : Env)
    (hi : ISSUER e1 = ISSUER e2) (hb : BASE_URL e1 = BASE_URL e2) :
    oauth_metadata e1 = oauth_metadata e2 ∧
    openid_config e1 = openid_config e2 ∧
    oauth_protected_resource e1 = oauth_protected_resource e2 ∧
    (oauth_metadata e1).1 = 200 ∧ (openid_config e1).1 = 200 ∧
    (oauth_protected_resource e1).1 = 200 := by
  refine ⟨?_, ?_, ?_, rfl, rfl, rfl⟩ <;>
    simp only [oauth_metadata, openid_config, oauth_protected_resource, hi, hb]

/-- Claim C8 (witness): two configurations differing in audience and
client secret but agreeing on issuer and base URL get identical
discovery documents. -/
theorem discovery_endpoints_deterministic_witness :
    oauth_metadata envDefault = oauth_metadata envAlt ∧
    openid_config envDefault = openid_config envAlt ∧
    oauth_protected_resource envDefault = oauth_protected_resource envAlt ∧
    (oauth_metadata envDefault).1 = 200 ∧ (openid_config envDefault).1 = 200 ∧
    (oauth_protected_resource envDefault).1 = 200 :=
  discovery_endpoints_deterministic envDefault envAlt rfl rfl

/-- Claim C9: every 201 register response on an object body has exactly
the ten record keys, in order, and no others; request fields outside the
six echoed parameters never appear. -/
theorem register_response_key_set (env : Env) (now : Int) (d : List (String × Json)) :
    respKeys (register env now (ParsedBody.parsed (Json.obj d)))
      = some ["client_id", "client_secret", "client_id_issued_at", "client_secret_expires_at",
              "redirect_uris", "token_endpoint_auth_method", "grant_types", "response_types",
              "client_name", "scope"] :=
  rfl

/-- Claim C10: a body parsing as valid JSON that is not an object makes
the register handler raise (an uncaught AttributeError from data.get)
instead of producing any response. -/
theorem register_non_object_raises (env : Env) (now : Int) (j : Json)
    (h : j.isObj = false) :
    ∃ e, register env now (ParsedBody.parsed j) = Except.error e := by
  cases j with
  | obj d => simp [Json.isObj] at h
  | null => exact ⟨_, rfl⟩
  | bool b => exact ⟨_, rfl⟩
  | num n => exact ⟨_, rfl⟩
  | str s => exact ⟨_, rfl⟩
  | arr xs => exact ⟨_, rfl⟩

/-- Claim C10 (witness): the empty JSON array is not an object and makes
the handler raise. -/
theorem register_non_object_raises_witness :
    (Json.arr []).isObj = false ∧
    ∃ e, register envDefault 0 (ParsedBody.parsed (Json.arr [])) = Except.error e :=
  ⟨rfl, register_non_object_raises envDefault 0 (Json.arr []) rfl⟩
